import Mathlib

/-!
Verification of the room_loop real-time room-session engine.

Shallow embedding of the server code in `src/server/storage.ts`,
`src/server/routes.ts` and the data model of `src/shared/schema.ts`.
Dates are modelled as integers (milliseconds since epoch); `serial`
primary keys are modelled by explicit counters in the store state.
Timestamp columns with database defaults (`createdAt`, `joinedAt`) are
elided: no verified property mentions them.
-/

namespace RoomLoop

/-- Room status enumeration: ROOM_STATUS = ["scheduled", "live", "closed"]. -/
inductive RoomStatus where
  | scheduled
  | live
  | closed
deriving DecidableEq, Repr

/-- Room type enumeration: ROOM_TYPES = ["private", "public"].
`priv`/`pub` stand for the strings "private"/"public". -/
inductive RoomType where
  | priv
  | pub
deriving DecidableEq, Repr

/-- Row of the `users` table (claim-relevant columns). -/
structure User where
  id : Nat
  username : String
deriving DecidableEq, Repr

/-- Row of the `rooms` table. -/
structure Room where
  id : Nat
  title : String
  type : RoomType
  tag : String
  status : RoomStatus
  startTime : Int
  endTime : Int
  maxParticipants : Option Nat
  creatorId : Nat
deriving DecidableEq, Repr

/-- Row of the `room_invitations` table: `userId` is nullable (invitation
by email), `email` is nullable (invitation by user). -/
structure RoomInvitation where
  id : Nat
  roomId : Nat
  userId : Option Nat
  email : Option String
  accepted : Bool
deriving DecidableEq, Repr

/-- Row of the `room_participants` table. -/
structure RoomParticipant where
  roomId : Nat
  userId : Nat
deriving DecidableEq, Repr

/-- Row of the `messages` table. -/
structure Message where
  id : Nat
  roomId : Nat
  userId : Nat
  content : String
deriving DecidableEq, Repr

/-- Row of the `reactions` table. -/
structure Reaction where
  id : Nat
  roomId : Nat
  userId : Nat
  type : String
deriving DecidableEq, Repr

/-- Payload accepted by `insertRoomSchema` (creatorId merged in by the route). -/
structure InsertRoom where
  title : String
  type : RoomType
  tag : String
  startTime : Int
  endTime : Int
  maxParticipants : Option Nat
  creatorId : Nat
deriving DecidableEq, Repr

/-- Payload accepted by `insertMessageSchema`. -/
structure InsertMessage where
  roomId : Nat
  userId : Nat
  content : String
deriving DecidableEq, Repr

/-- Payload accepted by `insertReactionSchema`. -/
structure InsertReaction where
  roomId : Nat
  userId : Nat
  type : String
deriving DecidableEq, Repr

/-- The durable store state: one list per claim-relevant table, plus the
next value of each `serial` primary-key sequence. -/
structure Store where
  users : List User
  rooms : List Room
  invitations : List RoomInvitation
  participants : List RoomParticipant
  messages : List Message
  reactions : List Reaction
  nextRoomId : Nat
  nextMessageId : Nat
  nextReactionId : Nat
deriving DecidableEq, Repr

/-- Failure modes thrown by `DatabaseStorage` methods. -/
inductive StoreErr where
  | alreadyParticipant
deriving DecidableEq, Repr

/-- `DatabaseStorage.getUser`: first `users` row with the given id. -/
def getUser (st : Store) (id : Nat) : Option User :=
  st.users.find? (fun u => u.id == id)

/-- `DatabaseStorage.getRoom`: first `rooms` row with the given id. -/
def getRoom (st : Store) (id : Nat) : Option Room :=
  st.rooms.find? (fun r => r.id == id)

/-- `DatabaseStorage.updateRoomStatus`: set `status` on every room row
with the given id. -/
def updateRoomStatus (st : Store) (id : Nat) (status : RoomStatus) : Store :=
  { st with rooms := st.rooms.map (fun r => if r.id == id then { r with status := status } else r) }

/-- `DatabaseStorage.isRoomParticipant`: whether a `room_participants`
row exists for the pair. -/
def isRoomParticipant (st : Store) (roomId userId : Nat) : Bool :=
  st.participants.any (fun p => p.roomId == roomId && p.userId == userId)

/-- `DatabaseStorage.addRoomParticipant`: throws if already a
participant, otherwise inserts the row. -/
def addRoomParticipant (st : Store) (roomId userId : Nat) :
    Except StoreErr (RoomParticipant × Store) :=
  if isRoomParticipant st roomId userId then
    Except.error StoreErr.alreadyParticipant
  else
    Except.ok (⟨roomId, userId⟩,
      { st with participants := st.participants ++ [⟨roomId, userId⟩] })

/-- `DatabaseStorage.getRoomParticipants`: inner join of `users` with
`room_participants` filtered by room — one user row per participant row
whose `userId` resolves in `users`. -/
def getRoomParticipants (st : Store) (roomId : Nat) : List User :=
  st.participants.filterMap (fun p =>
    if p.roomId == roomId then getUser st p.userId else none)

/-- `DatabaseStorage.getRoomInvitationsByRoom`. -/
def getRoomInvitationsByRoom (st : Store) (roomId : Nat) : List RoomInvitation :=
  st.invitations.filter (fun i => i.roomId == roomId)

/-- `DatabaseStorage.acceptRoomInvitation`: set `accepted := true` on the
invitation row, then (when the invitation carries a userId) add the
participant row, propagating `addRoomParticipant`'s failure. -/
def acceptRoomInvitation (st : Store) (id : Nat) :
    Except StoreErr (Option RoomInvitation × Store) :=
  match st.invitations.find? (fun i => i.id == id) with
  | none => Except.ok (none, st)
  | some inv =>
      let inv2 : RoomInvitation := { inv with accepted := true }
      let st2 : Store :=
        { st with invitations :=
            st.invitations.map (fun i => if i.id == id then { i with accepted := true } else i) }
      match inv.userId with
      | none => Except.ok (some inv2, st2)
      | some u =>
          match addRoomParticipant st2 inv.roomId u with
          | Except.error e => Except.error e
          | Except.ok (_, st3) => Except.ok (some inv2, st3)

/-- `DatabaseStorage.createMessage`: insert the row with the next serial id. -/
def createMessage (st : Store) (m : InsertMessage) : Message × Store :=
  let row : Message := ⟨st.nextMessageId, m.roomId, m.userId, m.content⟩
  (row, { st with messages := st.messages ++ [row],
                  nextMessageId := st.nextMessageId + 1 })

/-- `DatabaseStorage.removeReaction`: delete every `reactions` row
matching (roomId, userId, type). -/
def removeReaction (st : Store) (roomId userId : Nat) (type : String) : Store :=
  { st with reactions :=
      st.reactions.filter (fun x =>
        !(x.roomId == roomId && x.userId == userId && x.type == type)) }

/-- `DatabaseStorage.createReaction`: remove any existing reaction of the
same (roomId, userId, type), then insert the new row. -/
def createReaction (st : Store) (r : InsertReaction) : Reaction × Store :=
  let st2 := removeReaction st r.roomId r.userId r.type
  let row : Reaction := ⟨st2.nextReactionId, r.roomId, r.userId, r.type⟩
  (row, { st2 with reactions := st2.reactions ++ [row],
                   nextReactionId := st2.nextReactionId + 1 })

/-- `DatabaseStorage.createRoom`: initial status from the current time
(scheduled unless the window has begun or already passed), insert the
room with the next serial id, then add the creator as participant. -/
def createRoom (now : Int) (st : Store) (ir : InsertRoom) :
    Except StoreErr (Room × Store) :=
  let status : RoomStatus :=
    if ir.startTime ≤ now && ir.endTime > now then RoomStatus.live
    else if ir.endTime ≤ now then RoomStatus.closed
    else RoomStatus.scheduled
  let room : Room :=
    ⟨st.nextRoomId, ir.title, ir.type, ir.tag, status,
      ir.startTime, ir.endTime, ir.maxParticipants, ir.creatorId⟩
  let st2 : Store := { st with rooms := st.rooms ++ [room],
                               nextRoomId := st.nextRoomId + 1 }
  match addRoomParticipant st2 room.id room.creatorId with
  | Except.error e => Except.error e
  | Except.ok (_, st3) => Except.ok (room, st3)

/-- `DatabaseStorage.updateRoomStatuses` (the sweep): select scheduled
rooms whose window has begun and has not ended, mark them live; then,
against the updated table, select live rooms whose window has ended and
mark them closed. Returns the two selected sets (with their pre-update
status fields, as `returning` does). -/
def updateRoomStatuses (now : Int) (st : Store) :
    Store × List Room × List Room :=
  let goLivePred := fun (r : Room) =>
    r.status == RoomStatus.scheduled && r.startTime ≤ now && r.endTime ≥ now
  let roomsToGoLive := st.rooms.filter goLivePred
  let rooms1 := st.rooms.map (fun r =>
    if goLivePred r then { r with status := RoomStatus.live } else r)
  let closePred := fun (r : Room) =>
    r.status == RoomStatus.live && r.endTime ≤ now
  let roomsToClose := rooms1.filter closePred
  let rooms2 := rooms1.map (fun r =>
    if closePred r then { r with status := RoomStatus.closed } else r)
  ({ st with rooms := rooms2 }, roomsToGoLive, roomsToClose)

/-- Effect of one sweep tick on a single room row (the per-row action of
`updateRoomStatuses`; the bulk updates act row-wise since ids are a
primary key). -/
def sweepRoom (now : Int) (r : Room) : Room :=
  let r1 :=
    if r.status == RoomStatus.scheduled && r.startTime ≤ now && r.endTime ≥ now
    then { r with status := RoomStatus.live } else r
  if r1.status == RoomStatus.live && r1.endTime ≤ now
  then { r1 with status := RoomStatus.closed } else r1

/-- Modelled from the spec: the Room Lifecycle Manager contract.
`now < startTime` gives scheduled, `startTime ≤ now < endTime` gives
live, `now ≥ endTime` gives closed. -/
def computeStatus (startTime endTime now : Int) : RoomStatus :=
  if now < startTime then RoomStatus.scheduled
  else if now < endTime then RoomStatus.live
  else RoomStatus.closed

/-- Numeric rank of a status along the lifecycle order
scheduled → live → closed. -/
def RoomStatus.idx : RoomStatus → Nat
  | RoomStatus.scheduled => 0
  | RoomStatus.live => 1
  | RoomStatus.closed => 2

/-- Lifecycle order on statuses (scheduled ≤ live ≤ closed). -/
def statusLe (a b : RoomStatus) : Prop := a.idx ≤ b.idx

instance : DecidablePred fun p : RoomStatus × RoomStatus => statusLe p.1 p.2 :=
  fun p => inferInstanceAs (Decidable (p.1.idx ≤ p.2.idx))

instance (a b : RoomStatus) : Decidable (statusLe a b) :=
  inferInstanceAs (Decidable (a.idx ≤ b.idx))

/-- Lazy reconciliation performed by the `GET /api/rooms/:id` handler:
a live room outside its time window is closed; a scheduled room inside
its window goes live; anything else is untouched. -/
def reconcileRoom (now : Int) (r : Room) : Room :=
  let isWithinTimeWindow := r.startTime ≤ now && r.endTime > now
  if r.status == RoomStatus.live && !isWithinTimeWindow then
    { r with status := RoomStatus.closed }
  else if r.status == RoomStatus.scheduled && isWithinTimeWindow then
    { r with status := RoomStatus.live }
  else r

/-- The `userAccess` object in the `GET /api/rooms/:id` response body. -/
structure UserAccess where
  isCreator : Bool
  isParticipant : Bool
  canJoin : Bool
  canChat : Bool
deriving DecidableEq, Repr

/-- Outcome of `GET /api/rooms/:id` for an authenticated user. -/
inductive GetRoomResult where
  | notFound
  | forbidden
  | ok (room : Room) (access : UserAccess)
deriving DecidableEq, Repr

/-- The `GET /api/rooms/:id` handler: access check, lazy status
reconciliation (persisted through `updateRoomStatus` exactly when a
branch fires), then the `userAccess` flags computed from the reconciled
status. Broadcast side effects of the reconciliation are not modelled
here (no claim mentions them). -/
def getRoomDetail (now : Int) (st : Store) (userId roomId : Nat) :
    GetRoomResult × Store :=
  match getRoom st roomId with
  | none => (GetRoomResult.notFound, st)
  | some room =>
      let isCreator := room.creatorId == userId
      let isParticipant := isRoomParticipant st roomId userId
      let isPublic := room.type == RoomType.pub
      if !isCreator && !isParticipant && !isPublic then
        (GetRoomResult.forbidden, st)
      else
        let room2 := reconcileRoom now room
        let st2 :=
          if room2.status == room.status then st
          else updateRoomStatus st roomId room2.status
        (GetRoomResult.ok room2
          { isCreator := isCreator
            isParticipant := isParticipant
            canJoin := room2.status == RoomStatus.live && (isPublic || isParticipant)
            canChat := room2.status == RoomStatus.live && isParticipant },
          st2)

/-- Modelled from the spec: the Access Control Gate predicate
`canJoin(room, user)` — room live, and (public or an existing
participant/invitation relationship), and (no cap or participants below
the cap). -/
def canJoinSpec (st : Store) (room : Room) (userId : Nat) : Bool :=
  room.status == RoomStatus.live
  && (room.type == RoomType.pub
      || isRoomParticipant st room.id userId
      || st.invitations.any (fun i => i.roomId == room.id && i.userId == some userId))
  && (match room.maxParticipants with
      | none => true
      | some cap => (getRoomParticipants st room.id).length < cap)

/-- The `POST /api/rooms/:id/join` handler, returning the HTTP status
code: 404 unknown room, 400 not live or at capacity, 200 already a
participant or joined, 403 private room without a matching invitation,
500 when a storage call throws. The capacity check mirrors the source:
it runs only when `maxParticipants` is truthy (non-null and non-zero). -/
def joinRoom (st : Store) (roomId userId : Nat) : Nat × Store :=
  match getRoom st roomId with
  | none => (404, st)
  | some room =>
      if room.status != RoomStatus.live then (400, st)
      else if (match room.maxParticipants with
               | some cap => cap != 0 && (getRoomParticipants st roomId).length ≥ cap
               | none => false) then (400, st)
      else if isRoomParticipant st roomId userId then (200, st)
      else if room.type == RoomType.priv then
        match (getRoomInvitationsByRoom st roomId).find? (fun i => i.userId == some userId) with
        | none => (403, st)
        | some inv =>
            match acceptRoomInvitation st inv.id with
            | Except.error _ => (500, st)
            | Except.ok (_, st2) => (200, st2)
      else
        match addRoomParticipant st roomId userId with
        | Except.error _ => (500, st)
        | Except.ok (_, st2) => (200, st2)

/-- The `POST /api/rooms/:id/messages` handler, returning the HTTP
status code: 404 unknown room, 400 room not live, 403 not a participant,
201 with the message persisted. -/
def postMessage (st : Store) (roomId userId : Nat) (content : String) :
    Nat × Store :=
  match getRoom st roomId with
  | none => (404, st)
  | some room =>
      if room.status != RoomStatus.live then (400, st)
      else if !isRoomParticipant st roomId userId then (403, st)
      else
        let (_, st2) := createMessage st ⟨roomId, userId, content⟩
        (201, st2)

/-! ## WebSocket session model

Connections are identified by natural numbers. `roomConnections` (a JS
`Map` of room id to a `Set` of sockets) is modelled as a function from
room id to the bucket's member list: `Map.get` of an absent key and an
empty bucket are both the empty list, which matches every read the
handlers perform. `readyState === OPEN` is modelled by membership in an
`openConns` list. -/

/-- The per-connection `userData` record bound by an `init` frame. -/
structure WSData where
  userId : Nat
  roomId : Nat
deriving DecidableEq, Repr

/-- The connection registry: room id to connection ids. -/
def Registry := Nat → List Nat

/-- Bucket lookup (`roomConnections.get(roomId)` with a missing key
reading as the empty set). -/
def Registry.get (reg : Registry) (roomId : Nat) : List Nat := reg roomId

/-- Add a connection to a room's bucket (`Set.add`: no duplicate entry). -/
def Registry.add (reg : Registry) (roomId : Nat) (c : Nat) : Registry :=
  fun x => if x == roomId then (if c ∈ reg roomId then reg roomId else reg roomId ++ [c]) else reg x

/-- Remove a connection from a room's bucket (`Set.delete`; dropping an
emptied bucket is observationally the empty list here). -/
def Registry.remove (reg : Registry) (roomId : Nat) (c : Nat) : Registry :=
  fun x => if x == roomId then (reg roomId).filter (fun y => y != c) else reg x

/-- Parsed inbound frames, discriminated by `data.type`. For a
`message` frame, `content` is `data.content` and `msgContent` is
`data.message.content` (each absent or empty when the JSON field is);
`username` is `data.username`. `other` covers every unknown tag. -/
inductive Frame where
  | init (userId roomId : Nat)
  | message (content : Option String) (msgContent : Option String) (username : Option String)
  | reaction (reactionType : Option String)
  | other
deriving DecidableEq, Repr

/-- Whether a frame is an `init` frame. -/
def Frame.isInit : Frame → Bool
  | Frame.init _ _ => true
  | _ => false

/-- Outbound server frames (claim-relevant payload fields). -/
inductive OutEvent where
  | initAck
  | messageEvt (id : Option Nat) (roomId userId : Nat) (content : String)
      (userInfoId : Option Nat) (userInfoName : Option String)
  | reactionEvt (id roomId userId : Nat) (reactionType : String)
      (userInfoId : Option Nat) (userInfoName : Option String)
  | errorEvt
deriving DecidableEq, Repr

/-- Result of handling one inbound frame on one connection. -/
structure StepResult where
  store : Store
  reg : Registry
  ud : Option WSData
  sends : List (Nat × OutEvent)

/-- JS truthiness of an optional string field (absent and "" are falsy). -/
def truthy : Option String → Bool
  | none => false
  | some s => s != ""

/-- The `data.type === 'message'` branch for a bound connection. When
`data.message.content` is truthy, the row is persisted and broadcast
(with its durable id) to every other open connection in the room while
the sender gets an immediate echo with a null id; otherwise the row is
persisted from `data.content` and the persisted row is sent back to the
sender only (an absent `data.content` makes the insert throw, yielding
an error frame). -/
def handleMessageFrame (st : Store) (reg : Registry) (openConns : List Nat)
    (self : Nat) (d : WSData) (content msgContent username : Option String) :
    Store × List (Nat × OutEvent) :=
  let user := getUser st d.userId
  if truthy msgContent then
    let mc := msgContent.getD ""
    let (saved, st2) := createMessage st ⟨d.roomId, d.userId, mc⟩
    let echo :=
      if self ∈ openConns then
        [(self, OutEvent.messageEvt none d.roomId d.userId mc
            (user.map (fun u => u.id)) (user.map (fun u => u.username)))]
      else []
    let broadcastTargets := (reg.get d.roomId).filter (fun c => c != self && c ∈ openConns)
    let broadcasts := broadcastTargets.map (fun c =>
      (c, OutEvent.messageEvt (some saved.id) saved.roomId saved.userId saved.content
          (some d.userId) (some (username.getD ("User")))))
    (st2, echo ++ broadcasts)
  else
    match content with
    | none => (st, [(self, OutEvent.errorEvt)])
    | some c =>
        let (saved, st2) := createMessage st ⟨d.roomId, d.userId, c⟩
        let echo :=
          if self ∈ openConns then
            [(self, OutEvent.messageEvt (some saved.id) saved.roomId saved.userId c
                (user.map (fun u => u.id)) (user.map (fun u => u.username)))]
          else []
        (st2, echo)

/-- The `data.type === 'reaction'` branch for a bound connection: a
falsy `reactionType` throws (error frame back to the sender), otherwise
the reaction is persisted and broadcast to every open connection in the
room, sender included. -/
def handleReactionFrame (st : Store) (reg : Registry) (openConns : List Nat)
    (self : Nat) (d : WSData) (reactionType : Option String) :
    Store × List (Nat × OutEvent) :=
  if truthy reactionType then
    let t := reactionType.getD ""
    let user := getUser st d.userId
    let (reaction, st2) := createReaction st ⟨d.roomId, d.userId, t⟩
    let targets := (reg.get d.roomId).filter (fun c => c ∈ openConns)
    (st2, targets.map (fun c =>
      (c, OutEvent.reactionEvt reaction.id reaction.roomId reaction.userId reaction.type
          (user.map (fun u => u.id)) (user.map (fun u => u.username)))))
  else
    (st, [(self, OutEvent.errorEvt)])

/-- The `wss` per-connection `message` handler: `init` (re)binds
`userData` and registers the connection (again under the reserved
bucket 0 for global connections) and acknowledges; `message` and
`reaction` frames act only when `userData` is bound; every other case
falls through with no reply. -/
def handleFrame (st : Store) (reg : Registry) (openConns : List Nat)
    (self : Nat) (ud : Option WSData) : Frame → StepResult
  | Frame.init u r =>
      let d : WSData := ⟨u, r⟩
      let reg2 := reg.add r self
      let reg3 := if r == 0 then reg2.add 0 self else reg2
      ⟨st, reg3, some d, [(self, OutEvent.initAck)]⟩
  | Frame.message content msgContent username =>
      match ud with
      | some d =>
          let (st2, sends) := handleMessageFrame st reg openConns self d content msgContent username
          ⟨st2, reg, ud, sends⟩
      | none => ⟨st, reg, ud, []⟩
  | Frame.reaction reactionType =>
      match ud with
      | some d =>
          let (st2, sends) := handleReactionFrame st reg openConns self d reactionType
          ⟨st2, reg, ud, sends⟩
      | none => ⟨st, reg, ud, []⟩
  | Frame.other => ⟨st, reg, ud, []⟩

/-- The `ws` `close` handler: when `userData` is bound, remove the
connection from the bucket of the currently bound room id only. -/
def handleClose (reg : Registry) (ud : Option WSData) (self : Nat) : Registry :=
  match ud with
  | none => reg
  | some d => reg.remove d.roomId self

/-! ## Concrete fixtures for witnesses and counterexamples -/

/-- The empty store. -/
def st0 : Store := ⟨[], [], [], [], [], [], 1, 1, 1⟩

/-- The empty connection registry. -/
def regEmpty : Registry := fun _ => []

/-- C4 witness fixture: a store with one user. -/
def stWitC4 : Store := { st0 with users := [⟨5, "alice"⟩] }

/-- C4 witness fixture: a room request whose window has already begun. -/
def irWitC4 : InsertRoom := ⟨"standup", RoomType.pub, "work", 0, 10, none, 5⟩

/-- C1 counterexample fixture: a scheduled room whose whole time window
is already in the past. -/
def rC1 : Room := ⟨7, "t", RoomType.pub, "work", RoomStatus.scheduled, 0, 1, none, 5⟩

/-- C1 counterexample fixture: store holding only `rC1` and its creator. -/
def stC1 : Store := { st0 with users := [⟨5, "alice"⟩], rooms := [rC1], nextRoomId := 8 }

/-- C1 witness fixture: a live room whose window has ended. -/
def rWitC1 : Room := ⟨7, "t", RoomType.pub, "work", RoomStatus.live, 0, 10, none, 5⟩

/-- C2 fixture: registry with connections 1 and 2 registered for room 7. -/
def regC2 : Registry := fun x => if x == 7 then [1, 2] else []

/-- C2 fixture: store with the sender's user row. -/
def stC2 : Store := { st0 with users := [⟨5, "alice"⟩, ⟨6, "bob"⟩] }

/-- C3 counterexample fixture: a closed room. -/
def roomC3 : Room := ⟨7, "t", RoomType.pub, "work", RoomStatus.closed, 0, 1, none, 9⟩

/-- C3 counterexample fixture: store with the closed room and a user who
is not a participant of it. -/
def stC3 : Store := { st0 with users := [⟨5, "alice"⟩, ⟨9, "carol"⟩], rooms := [roomC3], nextRoomId := 8 }

/-- C3 witness fixture: a live room. -/
def roomWitC3 : Room := ⟨7, "t", RoomType.pub, "work", RoomStatus.live, 0, 10, none, 9⟩

/-- C3 witness fixture: store with the live room, its creator as
participant, and a non-participant user 6. -/
def stWitC3 : Store :=
  { st0 with users := [⟨9, "carol"⟩, ⟨6, "bob"⟩], rooms := [roomWitC3],
             participants := [⟨7, 9⟩], nextRoomId := 8 }

/-- C6 counterexample fixture: a live public room capped at 2 participants. -/
def roomC6 : Room := ⟨7, "t", RoomType.pub, "work", RoomStatus.live, 0, 10, some 2, 9⟩

/-- C6 counterexample fixture: the capped room is full and user 5 is one
of its two participants. -/
def stC6 : Store :=
  { st0 with users := [⟨5, "alice"⟩, ⟨9, "carol"⟩], rooms := [roomC6],
             participants := [⟨7, 9⟩, ⟨7, 5⟩], nextRoomId := 8 }

/-- C6 witness fixture: an uncapped live public room with participant 5. -/
def roomWitC6 : Room := ⟨7, "t", RoomType.pub, "work", RoomStatus.live, 0, 10, none, 9⟩

/-- C6 witness fixture: store for the uncapped live room. -/
def stWitC6 : Store :=
  { st0 with users := [⟨5, "alice"⟩, ⟨9, "carol"⟩], rooms := [roomWitC6],
             participants := [⟨7, 9⟩, ⟨7, 5⟩], nextRoomId := 8 }

/-- C7 counterexample fixture: a live private room. -/
def roomC7 : Room := ⟨7, "t", RoomType.priv, "work", RoomStatus.live, 0, 10, none, 9⟩

/-- C7 counterexample fixture: user 5 is not a participant and holds only
an already-accepted invitation to the private room. -/
def stC7 : Store :=
  { st0 with users := [⟨5, "alice"⟩, ⟨9, "carol"⟩], rooms := [roomC7],
             participants := [⟨7, 9⟩], invitations := [⟨1, 7, some 5, none, true⟩],
             nextRoomId := 8 }

/-- C7 witness fixture: user 5 holds an unaccepted invitation to the
private room. -/
def stWitC7 : Store :=
  { st0 with users := [⟨5, "alice"⟩, ⟨9, "carol"⟩], rooms := [roomC7],
             participants := [⟨7, 9⟩], invitations := [⟨1, 7, some 5, none, false⟩],
             nextRoomId := 8 }

/-- C9 counterexample fixture: a live public room capped at 2 participants. -/
def roomC9 : Room := ⟨7, "t", RoomType.pub, "work", RoomStatus.live, 0, 10, some 2, 9⟩

/-- C9 counterexample fixture: the capped room is full; user 6 is neither
creator nor participant and holds no invitation. -/
def stC9 : Store :=
  { st0 with users := [⟨5, "alice"⟩, ⟨9, "carol"⟩, ⟨6, "bob"⟩], rooms := [roomC9],
             participants := [⟨7, 9⟩, ⟨7, 5⟩], nextRoomId := 8 }

/-- C9 witness fixture: the `userAccess` object returned to participant
5 for `roomC9`. -/
def uaWitC9 : UserAccess := ⟨false, true, true, true⟩

/-! ## Theorems -/

/-- A filter that removed every `p`-row, followed by a single `p`-row,
leaves exactly one `p`-row. -/
lemma countP_filter_not_append_singleton (l : List Reaction) (p : Reaction → Bool)
    (a : Reaction) (ha : p a = true) :
    ((l.filter fun x => !p x) ++ [a]).countP p = 1 := by
  rw [List.countP_append]
  have h0 : (l.filter fun x => !p x).countP p = 0 := by
    rw [List.countP_eq_zero]
    intro b hb
    have h2 := (List.mem_filter.mp hb).2
    simp only [Bool.not_eq_true'] at h2
    simp [h2]
  rw [h0, List.countP_cons_of_pos _ _ ha, List.countP_nil]

/-- C5: For every (roomId, userId, type) triple, after any call to
createReaction there is exactly one Reaction row for that triple: a
repeated reaction of the same type from the same user in the same room
replaces (deletes-then-inserts) the prior row rather than producing a
duplicate. -/
theorem C5_reaction_unique (st : Store) (ir : InsertReaction) :
    ((createReaction st ir).2.reactions.countP
      (fun x => x.roomId == ir.roomId && x.userId == ir.userId && x.type == ir.type)) = 1 := by
  exact countP_filter_not_append_singleton st.reactions _
    ⟨st.nextReactionId, ir.roomId, ir.userId, ir.type⟩ (by simp)

/-- C4: For every insertRoom input (with a well-formed time window,
`startTime ≤ endTime`, as the data model requires, and a fresh room id),
createRoom sets the new room's initial status from the current time per
computeStatus and always adds the creator as a participant of the
created room. -/
theorem C4_createRoom_status_and_creator (now : Int) (st : Store) (ir : InsertRoom)
    (hw : ir.startTime ≤ ir.endTime)
    (hfresh : ∀ p ∈ st.participants, p.roomId ≠ st.nextRoomId) :
    ∃ room st2, createRoom now st ir = Except.ok (room, st2)
      ∧ room.status = computeStatus ir.startTime ir.endTime now
      ∧ room.creatorId = ir.creatorId
      ∧ (⟨room.id, ir.creatorId⟩ : RoomParticipant) ∈ st2.participants := by
  simp only [createRoom, addRoomParticipant]
  rw [if_neg (by
    intro hmem
    simp only [isRoomParticipant, List.any_eq_true] at hmem
    obtain ⟨p, hpmem, hpp⟩ := hmem
    have := hfresh p hpmem
    simp [this] at hpp)]
  refine ⟨_, _, rfl, ?_, rfl, by simp⟩
  simp only [computeStatus]
  split_ifs with h1 h2 h3 h4 h5 <;>
    simp_all <;> omega

/-- C4 witness: a concrete application of the theorem — creating a room
whose window has already begun yields a live room whose creator holds a
participant row. -/
theorem C4_createRoom_witness :
    ∃ room st2, createRoom 5 stWitC4 irWitC4 = Except.ok (room, st2)
      ∧ room.status = computeStatus irWitC4.startTime irWitC4.endTime 5
      ∧ room.creatorId = irWitC4.creatorId
      ∧ (⟨room.id, irWitC4.creatorId⟩ : RoomParticipant) ∈ st2.participants :=
  C4_createRoom_status_and_creator 5 stWitC4 irWitC4 (by decide) (by decide)

/-- C1 (amended): after a sweep tick or the lazy reconciliation of
`GET /api/rooms/:id`, a room's status equals `computeStatus(room, now)`
provided the stored status does not run ahead of the clock and the room
is not a scheduled room whose endTime has already passed — such a room
stays `scheduled` (the sweep's going-live query requires `endTime ≥ now`
and its closing query only touches rooms already `live`, and the GET
reconciliation has no scheduled-to-closed branch). The first conjunct
identifies the sweep's action on the table with the per-room function
`sweepRoom`; the last ties the GET handler's returned room to
`reconcileRoom`. -/
theorem C1_reconciled_status_equals_computeStatus (now : Int) (st : Store) :
    (updateRoomStatuses now st).1.rooms = st.rooms.map (sweepRoom now)
    ∧ (∀ r : Room, statusLe r.status (computeStatus r.startTime r.endTime now) →
        (¬(r.status = RoomStatus.scheduled ∧ r.endTime < now) →
            (sweepRoom now r).status = computeStatus r.startTime r.endTime now)
         ∧ (¬(r.status = RoomStatus.scheduled ∧ r.endTime ≤ now) →
            (reconcileRoom now r).status = computeStatus r.startTime r.endTime now))
    ∧ (∀ userId roomId room ua st2,
        getRoomDetail now st userId roomId = (GetRoomResult.ok room ua, st2) →
        ∃ r0, getRoom st roomId = some r0 ∧ room = reconcileRoom now r0) := by
  refine ⟨?_, ?_, ?_⟩
  · simp only [updateRoomStatuses, List.map_map]
    rfl
  · intro r hmono
    obtain ⟨rid, rtitle, rty, rtag, rstatus, rs, re, rmx, rcr⟩ := r
    cases rstatus <;>
      (constructor <;> intro hx <;>
        simp only [sweepRoom, reconcileRoom, computeStatus, statusLe, RoomStatus.idx,
          not_and] at hmono hx ⊢ <;>
        split_ifs at * <;> simp_all <;> omega)
  · intro userId roomId room ua st2 h
    simp only [getRoomDetail] at h
    cases hr : getRoom st roomId with
    | none => rw [hr] at h; simp at h
    | some r0 =>
        rw [hr] at h
        dsimp only at h
        split at h
        · simp at h
        · simp only [Prod.mk.injEq, GetRoomResult.ok.injEq] at h
          exact ⟨r0, rfl, h.1.1.symm⟩

/-- C1 witness: the theorem applied to a live room whose window has
ended — both the sweep and the lazy reconciliation close it, matching
computeStatus. -/
theorem C1_reconciled_status_witness :
    (sweepRoom 11 rWitC1).status = computeStatus rWitC1.startTime rWitC1.endTime 11
    ∧ (reconcileRoom 11 rWitC1).status = computeStatus rWitC1.startTime rWitC1.endTime 11 := by
  have h := (C1_reconciled_status_equals_computeStatus 11 st0).2.1 rWitC1 (by decide)
  exact ⟨h.1 (by decide), h.2 (by decide)⟩

/-- C1 counterexample: a scheduled room whose whole window is already in
the past keeps status `scheduled` both after a sweep tick and after a
reconciling `GET /api/rooms/:id`, while computeStatus says `closed` —
refuting the claim exactly on the case it singles out. -/
theorem C1_counterexample :
    computeStatus rC1.startTime rC1.endTime 2 = RoomStatus.closed
    ∧ (updateRoomStatuses 2 stC1).1.rooms = [rC1]
    ∧ getRoomDetail 2 stC1 5 7 = (GetRoomResult.ok rC1 ⟨true, false, false, false⟩, stC1)
    ∧ rC1.status = RoomStatus.scheduled := by
  refine ⟨by decide, by decide, by decide, by decide⟩

/-- C2 (amended): a bound connection sending the plain frame
`{type:"message", content:c}` has the row persisted (with the
store-assigned durable id) but the resulting `message` event is sent
back to the sender only — no other connection registered for the room
receives anything on this path. -/
theorem C2_plain_message_echoed_to_sender_only (st : Store) (reg : Registry)
    (openConns : List Nat) (self : Nat) (d : WSData) (c : String)
    (username : Option String) (hopen : self ∈ openConns) :
    (handleFrame st reg openConns self (some d) (Frame.message (some c) none username)).store.messages
        = st.messages ++ [⟨st.nextMessageId, d.roomId, d.userId, c⟩]
    ∧ (handleFrame st reg openConns self (some d) (Frame.message (some c) none username)).sends
        = [(self, OutEvent.messageEvt (some st.nextMessageId) d.roomId d.userId c
            ((getUser st d.userId).map (fun u => u.id))
            ((getUser st d.userId).map (fun u => u.username)))] := by
  constructor <;>
    simp [handleFrame, handleMessageFrame, truthy, createMessage, hopen]

/-- C2 witness: concrete application — sender 1 in room 7 sends "hi",
the row is persisted and echoed to connection 1 alone. -/
theorem C2_plain_message_witness :
    (handleFrame stC2 regC2 [1, 2] 1 (some ⟨5, 7⟩) (Frame.message (some ("hi")) none none)).store.messages
        = stC2.messages ++ [⟨stC2.nextMessageId, 7, 5, "hi"⟩]
    ∧ (handleFrame stC2 regC2 [1, 2] 1 (some ⟨5, 7⟩) (Frame.message (some ("hi")) none none)).sends
        = [(1, OutEvent.messageEvt (some stC2.nextMessageId) 7 5 ("hi")
            ((getUser stC2 5).map (fun u => u.id))
            ((getUser stC2 5).map (fun u => u.username)))] :=
  C2_plain_message_echoed_to_sender_only stC2 regC2 [1, 2] 1 ⟨5, 7⟩ ("hi") none (by decide)

/-- C2 counterexample: connections 1 and 2 are both open and registered
for room 7; connection 1 sends `{type:"message", content:"hi"}`, yet the
only recipient of any event is connection 1 — connection B (2) never
receives the `message` event the claim promises. -/
theorem C2_counterexample :
    Registry.get regC2 7 = [1, 2]
    ∧ ((handleFrame stC2 regC2 [1, 2] 1 (some ⟨5, 7⟩)
          (Frame.message (some ("hi")) none none)).sends.map (fun s => s.1)) = [1]
    ∧ (handleFrame stC2 regC2 [1, 2] 1 (some ⟨5, 7⟩)
          (Frame.message (some ("hi")) none none)).store.messages.length
        = stC2.messages.length + 1 := by
  refine ⟨rfl, rfl, rfl⟩

/-- C3 (amended): the HTTP endpoint enforces the invariant — it rejects
with 400 (no persistence) when the room is not live and 403 when the
author is not a participant, and persists exactly when the room is live
and the author participates; the WebSocket path, however, persists a
message row for any bound connection regardless of room status or
participation. -/
theorem C3_message_persistence_paths (st : Store) (roomId userId : Nat) (c : String)
    (room : Room) (hroom : getRoom st roomId = some room) :
    (room.status ≠ RoomStatus.live → postMessage st roomId userId c = (400, st))
    ∧ (room.status = RoomStatus.live → isRoomParticipant st roomId userId = false →
        postMessage st roomId userId c = (403, st))
    ∧ (room.status = RoomStatus.live → isRoomParticipant st roomId userId = true →
        postMessage st roomId userId c =
          (201, { st with messages := st.messages ++ [⟨st.nextMessageId, roomId, userId, c⟩],
                          nextMessageId := st.nextMessageId + 1 }))
    ∧ (∀ (reg : Registry) (openConns : List Nat) (self : Nat) (d : WSData)
          (msgContent username : Option String),
        (handleFrame st reg openConns self (some d)
            (Frame.message (some c) msgContent username)).store.messages.length
          = st.messages.length + 1) := by
  refine ⟨?_, ?_, ?_, ?_⟩
  · intro hns
    simp [postMessage, hroom, hns]
  · intro hl hnp
    simp [postMessage, hroom, hl, hnp]
  · intro hl hp
    simp [postMessage, hroom, hl, hp, createMessage]
  · intro reg openConns self d msgContent username
    by_cases hmc : truthy msgContent = true
    · simp [handleFrame, handleMessageFrame, hmc, createMessage]
    · simp [handleFrame, handleMessageFrame, hmc, createMessage]

/-- C3 witness: concrete application — a non-participant is rejected by
the HTTP endpoint on a live room, while the same user's bound WebSocket
frame still appends a message row. -/
theorem C3_message_persistence_witness :
    postMessage stWitC3 7 6 ("hi") = (403, stWitC3)
    ∧ (handleFrame stWitC3 regEmpty [1] 1 (some ⟨6, 7⟩)
        (Frame.message (some ("hi")) none none)).store.messages.length
      = stWitC3.messages.length + 1 := by
  have h := C3_message_persistence_paths stWitC3 7 6 ("hi") roomWitC3 (by decide)
  exact ⟨h.2.1 (by decide) (by decide), h.2.2.2 regEmpty [1] 1 ⟨6, 7⟩ none none⟩

/-- C3 counterexample: room 7 is closed and user 5 is not a participant,
yet the WebSocket message path persists the row — refuting the claim
that rows are created only when the room is live and the author is a
participant on every path. -/
theorem C3_counterexample :
    getRoom stC3 7 = some roomC3
    ∧ roomC3.status = RoomStatus.closed
    ∧ isRoomParticipant stC3 7 5 = false
    ∧ (handleFrame stC3 regEmpty [1] 1 (some ⟨5, 7⟩)
        (Frame.message (some ("hi")) none none)).store.messages = [⟨1, 7, 5, "hi"⟩] := by
  refine ⟨by decide, by decide, by decide, rfl⟩

/-- C8 (amended): a frame whose type is not `init`, received while the
connection is unbound, is silently ignored — no error frame (and no
other frame) is sent, no state changes, and the connection stays
unbound rather than being closed. -/
theorem C8_unbound_noninit_silently_ignored (st : Store) (reg : Registry)
    (openConns : List Nat) (self : Nat) (f : Frame) (h : f.isInit = false) :
    handleFrame st reg openConns self none f = ⟨st, reg, none, []⟩ := by
  cases f with
  | init u r => simp [Frame.isInit] at h
  | message c mc un => rfl
  | reaction rt => rfl
  | other => rfl

/-- C8 witness: concrete application — an unbound connection's `message`
frame produces no reply and no state change. -/
theorem C8_unbound_witness :
    handleFrame st0 regEmpty [1] 1 none (Frame.message (some ("hi")) none none)
      = ⟨st0, regEmpty, none, []⟩ :=
  C8_unbound_noninit_silently_ignored st0 regEmpty [1] 1
    (Frame.message (some ("hi")) none none) (by decide)

/-- C8 counterexample: an unbound connection sends a `reaction` frame;
the claim promises an error frame back to the sender, but the handler
sends nothing at all (the connection does stay unbound). -/
theorem C8_counterexample :
    (handleFrame st0 regEmpty [1] 1 none (Frame.reaction (some ("OK")))).sends = []
    ∧ (handleFrame st0 regEmpty [1] 1 none (Frame.reaction (some ("OK")))).ud = none :=
  ⟨rfl, rfl⟩

/-- A connection just added to a bucket is in that bucket. -/
lemma Registry.mem_get_add_self (reg : Registry) (r c : Nat) :
    c ∈ (reg.add r c).get r := by
  simp only [Registry.add, Registry.get, beq_self_eq_true, if_true]
  split_ifs with h
  · exact h
  · simp

/-- Adding to any bucket preserves existing bucket membership. -/
lemma Registry.mem_get_add (reg : Registry) (r r2 c x : Nat) (h : x ∈ reg.get r) :
    x ∈ (reg.add r2 c).get r := by
  simp only [Registry.add, Registry.get] at *
  split_ifs with h1 h2
  · cases beq_iff_eq.mp h1
    exact h
  · cases beq_iff_eq.mp h1
    exact List.mem_append_left _ h
  · exact h

/-- Removing a connection from a bucket removes it from that bucket. -/
lemma Registry.not_mem_get_remove_self (reg : Registry) (r c : Nat) :
    c ∉ (reg.remove r c).get r := by
  simp [Registry.remove, Registry.get]

/-- Removing from one bucket leaves the other buckets untouched. -/
lemma Registry.get_remove_ne (reg : Registry) (r r2 c : Nat) (h : r ≠ r2) :
    (reg.remove r2 c).get r = reg.get r := by
  simp [Registry.remove, Registry.get, h]

/-- C10: a bound connection that re-inits with a different roomId is
added to the new room's bucket while remaining in the previous room's
set, and the transport close removes it only from the most recently
bound room's bucket — the registry permanently retains the closed
connection in the earlier room's set. -/
theorem C10_rebind_retains_stale_registration (st : Store) (reg : Registry)
    (openConns : List Nat) (self u1 r1 u2 r2 : Nat) (h : r1 ≠ r2) :
    let s1 := handleFrame st reg openConns self none (Frame.init u1 r1)
    let s2 := handleFrame s1.store s1.reg openConns self s1.ud (Frame.init u2 r2)
    let reg3 := handleClose s2.reg s2.ud self
    self ∈ reg3.get r1 ∧ self ∉ reg3.get r2 := by
  intro s1 s2 reg3
  simp only [s1, s2, reg3, handleFrame, handleClose]
  constructor
  · rw [Registry.get_remove_ne _ _ _ _ h]
    split_ifs <;>
      repeat (first
        | exact Registry.mem_get_add_self _ _ _
        | apply Registry.mem_get_add)
  · exact Registry.not_mem_get_remove_self _ _ _

/-- C10 witness: concrete application — connection 1 inits into room 3,
re-inits into room 4, then closes; it is still registered under room 3
and gone from room 4. -/
theorem C10_rebind_witness :
    let s1 := handleFrame st0 regEmpty [1] 1 none (Frame.init 5 3)
    let s2 := handleFrame s1.store s1.reg [1] 1 s1.ud (Frame.init 5 4)
    let reg3 := handleClose s2.reg s2.ud 1
    1 ∈ reg3.get 3 ∧ 1 ∉ reg3.get 4 :=
  C10_rebind_retains_stale_registration st0 regEmpty [1] 1 5 3 5 4 (by decide)

/-- C6 (amended): re-joining as an existing participant never mutates
the store, and it returns 200 exactly when the room is live and (when a
non-zero `maxParticipants` cap is set) the participant count is still
below the cap — a closed/scheduled room or a full room answers the
already-participant user with 400, not 200. -/
theorem C6_rejoin_idempotent (st : Store) (roomId userId : Nat)
    (room : Room) (hroom : getRoom st roomId = some room)
    (hpart : isRoomParticipant st roomId userId = true) :
    (joinRoom st roomId userId).2 = st
    ∧ ((joinRoom st roomId userId).1 = 200 ↔
        (room.status = RoomStatus.live ∧
          ∀ cap, room.maxParticipants = some cap → cap ≠ 0 →
            (getRoomParticipants st roomId).length < cap)) := by
  simp only [joinRoom, hroom, hpart]
  split_ifs with h1 h2
  · refine ⟨rfl, ?_⟩
    simp only [bne_iff_ne, ne_eq] at h1
    simp [h1]
  · refine ⟨rfl, ?_⟩
    simp only [bne_iff_ne, ne_eq, not_not] at h1
    rcases hmx : room.maxParticipants with _ | cap
    · rw [hmx] at h2
      simp at h2
    · rw [hmx] at h2
      simp only [Bool.and_eq_true, bne_iff_ne, ne_eq, decide_eq_true_eq] at h2
      constructor
      · intro hcontra
        simp at hcontra
      · rintro ⟨-, hall⟩
        have := hall cap rfl h2.1
        omega
  · refine ⟨rfl, ?_⟩
    simp only [bne_iff_ne, ne_eq, not_not] at h1
    constructor
    · intro _
      refine ⟨h1, ?_⟩
      intro cap hcap hne
      rw [hcap] at h2
      simp only [Bool.and_eq_true, bne_iff_ne, ne_eq, decide_eq_true_eq, not_and] at h2
      have := h2 hne
      omega
    · intro _
      rfl

/-- C6 witness: concrete application — participant 5 re-joins an
uncapped live room, gets 200, and the store is unchanged. -/
theorem C6_rejoin_witness :
    (joinRoom stWitC6 7 5).2 = stWitC6
    ∧ ((joinRoom stWitC6 7 5).1 = 200 ↔
        (roomWitC6.status = RoomStatus.live ∧
          ∀ cap, roomWitC6.maxParticipants = some cap → cap ≠ 0 →
            (getRoomParticipants stWitC6 7).length < cap)) :=
  C6_rejoin_idempotent stWitC6 7 5 roomWitC6 (by decide) (by decide)

/-- C6 counterexample: user 5 is already a participant of the live room
7, but the room has reached its `maxParticipants` cap, and the capacity
check runs before the already-participant check — the rejoin gets 400,
not the promised 200. -/
theorem C6_counterexample :
    isRoomParticipant stC6 7 5 = true
    ∧ joinRoom stC6 7 5 = (400, stC6) := by
  refine ⟨by decide, by decide⟩

/-- Lazy reconciliation never changes the room's type. -/
lemma reconcileRoom_type (now : Int) (r : Room) : (reconcileRoom now r).type = r.type := by
  simp only [reconcileRoom]
  split_ifs <;> rfl

/-- C9 (amended): the `userAccess.canJoin` flag of `GET /api/rooms/:id`
is true exactly when the reconciled room is live and (the room is public
or the requester is already a participant) — invitations and the
`maxParticipants` cap play no part in it. -/
theorem C9_canJoin_flag (now : Int) (st : Store) (userId roomId : Nat)
    (room : Room) (ua : UserAccess) (st2 : Store)
    (h : getRoomDetail now st userId roomId = (GetRoomResult.ok room ua, st2)) :
    ua.canJoin = (room.status == RoomStatus.live
      && (room.type == RoomType.pub || isRoomParticipant st roomId userId)) := by
  simp only [getRoomDetail] at h
  cases hr : getRoom st roomId with
  | none => rw [hr] at h; simp at h
  | some r0 =>
      rw [hr] at h
      dsimp only at h
      split at h
      · simp at h
      · simp only [Prod.mk.injEq, GetRoomResult.ok.injEq] at h
        rw [← h.1.1, ← h.1.2]
        rw [show (reconcileRoom now r0).type = r0.type from reconcileRoom_type now r0]

/-- C9 witness: concrete application — participant 5 of the full public
live room gets `canJoin = true` (live and public). -/
theorem C9_canJoin_witness :
    uaWitC9.canJoin = (roomC9.status == RoomStatus.live
      && (roomC9.type == RoomType.pub || isRoomParticipant stC9 7 5)) :=
  C9_canJoin_flag 5 stC9 5 7 roomC9 uaWitC9 stC9 (by decide)

/-- C9 counterexample: room 7 is live, public and full (cap 2 with 2
participants); for non-participant 6 the spec predicate says canJoin is
false, but the handler reports canJoin = true — the claimed equivalence
fails because the handler ignores the capacity cap (and invitations). -/
theorem C9_counterexample :
    (getRoomDetail 5 stC9 6 7).1 = GetRoomResult.ok roomC9 ⟨false, false, true, false⟩
    ∧ canJoinSpec stC9 roomC9 6 = false := by
  refine ⟨by decide, by decide⟩

/-- With pairwise-distinct ids (the serial primary key), looking an
invitation up by its own id finds exactly that row. -/
lemma find_invitation_by_id (l : List RoomInvitation) (inv : RoomInvitation)
    (hmem : inv ∈ l) (hd : l.Pairwise (fun a b => a.id ≠ b.id)) :
    l.find? (fun i => i.id == inv.id) = some inv := by
  induction l with
  | nil => cases hmem
  | cons a t ih =>
      rw [List.pairwise_cons] at hd
      rcases List.mem_cons.mp hmem with h | h
      · subst h
        simp [List.find?]
      · have ha : a.id ≠ inv.id := hd.1 inv h
        rw [List.find?_cons_of_neg _ (by simp [ha])]
        exact ih h hd.2

/-- C7 (amended): joining a live private room as a non-participant
succeeds exactly when some invitation for the room carries the user's
userId — whether or not it is already accepted (the handler's lookup
never checks the `accepted` flag); on success the first matching
invitation's `accepted` is set to true and the participant row is
created. -/
theorem C7_private_join (st : Store) (roomId userId : Nat) (room : Room)
    (hroom : getRoom st roomId = some room)
    (hlive : room.status = RoomStatus.live)
    (hpriv : room.type = RoomType.priv)
    (hcap : (match room.maxParticipants with
             | some cap => cap != 0 && (getRoomParticipants st roomId).length ≥ cap
             | none => false) = false)
    (hpart : isRoomParticipant st roomId userId = false)
    (hids : st.invitations.Pairwise (fun a b => a.id ≠ b.id)) :
    ((getRoomInvitationsByRoom st roomId).find? (fun i => i.userId == some userId) = none →
        joinRoom st roomId userId = (403, st))
    ∧ (∀ inv, (getRoomInvitationsByRoom st roomId).find? (fun i => i.userId == some userId) = some inv →
        (joinRoom st roomId userId).1 = 200
        ∧ (joinRoom st roomId userId).2.participants = st.participants ++ [⟨roomId, userId⟩]
        ∧ (∀ j ∈ (joinRoom st roomId userId).2.invitations, j.id = inv.id → j.accepted = true)) := by
  have hstep : joinRoom st roomId userId =
      (match (getRoomInvitationsByRoom st roomId).find? (fun i => i.userId == some userId) with
       | none => (403, st)
       | some inv =>
           match acceptRoomInvitation st inv.id with
           | Except.error _ => (500, st)
           | Except.ok (_, st2) => (200, st2)) := by
    simp [joinRoom, hroom, hlive, hpriv, hpart, hcap]
  constructor
  · intro hfind
    rw [hfind] at hstep
    exact hstep
  · intro inv hfind
    have hfindmem : inv ∈ getRoomInvitationsByRoom st roomId := List.mem_of_find?_eq_some hfind
    have hfindpred := List.find?_some hfind
    have hinvuid : inv.userId = some userId := by simpa using hfindpred
    have hinvmem : inv ∈ st.invitations := (List.mem_filter.mp hfindmem).1
    have hroomeq : inv.roomId = roomId := by
      have := (List.mem_filter.mp hfindmem).2
      simpa using this
    have hfindid : st.invitations.find? (fun i => i.id == inv.id) = some inv :=
      find_invitation_by_id _ _ hinvmem hids
    have haccept : acceptRoomInvitation st inv.id = Except.ok ((some { inv with accepted := true }),
        { st with
          invitations :=
            st.invitations.map (fun i => if i.id == inv.id then { i with accepted := true } else i),
          participants := st.participants ++ [⟨roomId, userId⟩] }) := by
      simp only [acceptRoomInvitation, hfindid, hinvuid, addRoomParticipant]
      rw [if_neg (by
        rw [hroomeq]
        intro hmem
        have h2 : isRoomParticipant st roomId userId = true := hmem
        rw [hpart] at h2
        simp at h2)]
      rw [hroomeq]
    rw [hfind] at hstep
    dsimp only at hstep
    rw [haccept] at hstep
    rw [hstep]
    refine ⟨rfl, rfl, ?_⟩
    intro j hj hjid
    obtain ⟨i, hi, hij⟩ := List.mem_map.mp hj
    by_cases hii : (i.id == inv.id) = true
    · rw [if_pos hii] at hij
      rw [← hij]
    · rw [if_neg (by simp_all)] at hij
      subst hij
      exact absurd (by simp [hjid]) hii

/-- C7 witness: concrete application — user 5 holds an unaccepted
invitation to the live private room 7; joining returns 200, flips the
invitation to accepted, and creates the participant row. -/
theorem C7_private_join_witness :
    (joinRoom stWitC7 7 5).1 = 200
    ∧ (joinRoom stWitC7 7 5).2.participants = stWitC7.participants ++ [⟨7, 5⟩]
    ∧ (∀ j ∈ (joinRoom stWitC7 7 5).2.invitations, j.id = 1 → j.accepted = true) := by
  have h := (C7_private_join stWitC7 7 5 roomC7 (by decide) (by decide) (by decide)
      (by decide) (by decide) (by decide)).2
    ⟨1, 7, some 5, none, false⟩ (by decide)
  exact ⟨h.1, h.2.1, fun j hj hid => h.2.2 j hj hid⟩

/-- C7 counterexample: user 5's only invitation to the live private room
7 is already accepted (and the user is not a participant); the claim
requires a 403, but the handler — which never consults the `accepted`
flag — answers 200. -/
theorem C7_counterexample :
    (joinRoom stC7 7 5).1 = 200
    ∧ isRoomParticipant stC7 7 5 = false
    ∧ stC7.invitations.all (fun i => !(i.roomId == 7 && i.userId == some 5 && !i.accepted)) = true := by
  refine ⟨by decide, by decide, by decide⟩

end RoomLoop
